import Mathlib

/-!
Verification of the profile-section store, write gate, PII filter, legacy
file-backed variant and classification adapters of the matchmaking backend
(CSPMatchmakers/digitalmatchmaking_backend).

The Python sources are shallowly embedded: JSON payloads become an inductive
`JsonVal`, the ORM-backed table `matchmakers_data` becomes a list of records,
the process-wide `DatabaseStatus` row becomes an explicit state value passed to
each request handler, and each Flask handler becomes a pure function from
(status, store, request) to (response, store).
-/

/-- A JSON value as stored in the `data` columns and passed in request bodies.
Numbers are modelled as integers (no fractional payloads occur in the
subsystem under study). -/
inductive JsonVal where
  | null : JsonVal
  | bool : Bool → JsonVal
  | num : Int → JsonVal
  | str : String → JsonVal
  | arr : List JsonVal → JsonVal
  | obj : List (String × JsonVal) → JsonVal

/-- Fields of a JSON object, in insertion order (Python dicts preserve it). -/
abbrev JsonObj := List (String × JsonVal)

/-- Python truthiness of a JSON value (`if x:`): None, False, 0, "", [] and
empty dicts are falsy, everything else truthy. -/
def pyTruthy : JsonVal → Bool
  | .null => false
  | .bool b => b
  | .num n => n != 0
  | .str s => s != ""
  | .arr xs => !xs.isEmpty
  | .obj fs => !fs.isEmpty

/-- Python rendering of an optional string inside an f-string: `None` renders
as the literal text "None". -/
def pyStr : Option String → String
  | none => "None"
  | some s => s

/-- First value bound to key `k` in an association list (Python `d.get(k)` /
`d[k]` on a dict, whose keys are unique). -/
def assocFind {α : Type} (l : List (String × α)) (k : String) : Option α :=
  match l with
  | [] => none
  | (k', v) :: rest => if k' = k then some v else assocFind rest k

/-- Python `d[k] = v` on a dict: replace the value in place if the key is
present (keeping its position), otherwise append the new binding. -/
def assocSet {α : Type} (l : List (String × α)) (k : String) (v : α) :
    List (String × α) :=
  match l with
  | [] => [(k, v)]
  | (k', v') :: rest =>
      if k' = k then (k, v) :: rest else (k', v') :: assocSet rest k v

/-- Python `d.pop(k)` after a successful membership test: drop the first
binding of `k`. -/
def assocRemove {α : Type} (l : List (String × α)) (k : String) :
    List (String × α) :=
  match l with
  | [] => []
  | (k', v') :: rest =>
      if k' = k then rest else (k', v') :: assocRemove rest k

/-- Substring test on character lists (Python `pat in hay` for strings). -/
def charsContain (pat : List Char) : List Char → Bool
  | [] => pat.isEmpty
  | c :: rest => pat.isPrefixOf (c :: rest) || charsContain pat rest

/-- Python `pat in hay` on strings. -/
def strContains (hay pat : String) : Bool :=
  charsContain pat.toList hay.toList

/-- Python `d.get(k)` on a request body, where `None` marks an absent key. -/
def bodyGet (body : JsonObj) (k : String) : Option JsonVal :=
  assocFind body k

/-- Python `s.lower()` (character-wise lowering; the strings compared in this
subsystem are ASCII). -/
def pyLower (s : String) : String :=
  ⟨s.data.map Char.toLower⟩

/-- Python `s.strip()`: drop whitespace from both ends. -/
def pyStrip (s : String) : String :=
  ⟨((s.data.dropWhile Char.isWhitespace).reverse.dropWhile
      Char.isWhitespace).reverse⟩

/-- Characters strictly before the first occurrence of `sep` (the whole list
when `sep` does not occur): Python `s.split(sep)[0]`. -/
def takeBeforeFirst (sep : List Char) : List Char → List Char
  | [] => []
  | c :: rest =>
      if sep.isPrefixOf (c :: rest) then [] else c :: takeBeforeFirst sep rest

/-- Characters strictly after the first occurrence of `sep`, `none` when
`sep` does not occur.  Composed with `takeBeforeFirst` this reproduces
Python `s.split(sep)[1].split(fence)[0]` for the fence patterns below. -/
def dropThroughFirst (sep : List Char) : List Char → Option (List Char)
  | [] => if sep.isEmpty then some [] else none
  | c :: rest =>
      if sep.isPrefixOf (c :: rest) then some ((c :: rest).drop sep.length)
      else dropThroughFirst sep rest

/-! ## The ORM-backed profile-section store (src/model/matchmakers.py) -/

/-- An authenticated user, referenced by internal numeric id and public uid
(src/model/user.py is external; only these two attributes are consumed). -/
structure User where
  id : Nat
  uid : String
deriving DecidableEq, Repr

/-- The fixed enumeration of allowed PII sections
(src/model/matchmakers.py, lines 144-150). -/
def PII_SECTIONS : List String :=
  ["basic", "contact", "preferences", "security", "profile"]

/-- One row of the `matchmakers_data` table (src/model/matchmakers.py, lines
152-185): integer primary key, owning user id, section name and JSON payload.
The `created_at`/`updated_at` timestamp columns are omitted; no claim under
study observes them.  The schema declares NO unique constraint on
`(user_id, section)` (lines 169-175 declare only the primary key). -/
structure MatchmakersData where
  id : Nat
  user_id : Nat
  section_name : String
  data : JsonVal

/-- The `matchmakers_data` table contents, in primary-key (insertion) order. -/
abbrev MatchDB := List MatchmakersData

/-- A record built by `MatchmakersData.__init__` but not yet committed (the
primary key is assigned by the database on commit). -/
structure PendingRecord where
  user_id : Nat
  section_name : String
  data : JsonVal

/-- Embeds the `validate_section` validator (src/model/matchmakers.py, lines
187-192): a section outside `PII_SECTIONS` raises `ValueError` at
attribute-assignment time.  The source message interpolates the offending
value; the model keeps a fixed prefix. -/
def MatchmakersData.validate_section (value : String) : Except String String :=
  if value ∈ PII_SECTIONS then .ok value
  else .error ("Invalid PII section " ++ value)

/-- Embeds `MatchmakersData.__init__` (src/model/matchmakers.py, lines
180-185): assigning `self.section = section` fires `validate_section`, so an
invalid section makes construction raise before anything touches the
session. -/
def MatchmakersData.init (user : User) (sec : String) (data : JsonVal) :
    Except String PendingRecord :=
  match MatchmakersData.validate_section sec with
  | .error e => .error e
  | .ok v => .ok ⟨user.id, v, data⟩

/-- Primary key the database assigns to the next inserted row: one more than
the largest id in the table. -/
def nextId (db : MatchDB) : Nat :=
  (db.map (·.id)).foldr max 0 + 1

/-- Embeds `MatchmakersData.create` (src/model/matchmakers.py, lines
194-202): `session.add` + `commit`.  The source catches `IntegrityError` and
re-raises it as a ValueError saying the `(user, section)` record already
exists, but the table declares no unique constraint on `(user_id, section)`
and the non-null columns are always populated here, so the commit never
violates a constraint and the insert always succeeds; the result type stays
`Except` to mirror the raising signature. -/
def MatchmakersData.create (db : MatchDB) (p : PendingRecord) :
    Except String (MatchmakersData × MatchDB) :=
  let row : MatchmakersData := ⟨nextId db, p.user_id, p.section_name, p.data⟩
  .ok (row, db ++ [row])

/-- Embeds `MatchmakersData.update` (src/model/matchmakers.py, lines
204-215): replace the `data` column of the row with the given primary key and
commit. -/
def MatchmakersData.update (db : MatchDB) (recId : Nat) (newData : JsonVal) :
    MatchDB :=
  db.map fun r => if r.id = recId then { r with data := newData } else r

/-- Embeds `MatchmakersData.get_user_matchmakers_data` (src/model/
matchmakers.py, lines 229-235): filter by `user_id`, then by `section` only
when the argument is truthy (Python `if section:`). -/
def MatchmakersData.get_user_matchmakers_data (db : MatchDB) (user_id : Nat)
    (sec : Option String) : MatchDB :=
  let q := db.filter fun r => r.user_id == user_id
  match sec with
  | some s => if s == "" then q else q.filter fun r => r.section_name == s
  | none => q

/-! ## Write gate state (src/model/database_audit.py `DatabaseStatus` and the
matchmakers-specific columns it is used with) -/

/-- The singleton `database_status` row.  `status`, `is_paused` and
`pause_reason` come from src/model/database_audit.py (lines 142-153).  The
`is_matchmakers_paused` / `matchmakers_pause_reason` columns are read by
`matchmakers_write_allowed` (src/api/matchmaking_api.py, lines 20-30) and
toggled through `DatabaseStatus.pause_matchmakers_data` /
`resume_matchmakers_data` (src/api/control_panel_api.py, lines 246-317), but
their declarations are not under src; they are modelled from the spec as a
second boolean+reason pair, defaulting to not paused. -/
structure DatabaseStatus where
  status : String
  is_paused : Bool
  pause_reason : Option String
  is_matchmakers_paused : Bool
  matchmakers_pause_reason : Option String
deriving DecidableEq, Repr

/-- Column defaults of a freshly created `database_status` row
(`get_or_create` on an empty table). -/
def DatabaseStatus.initialStatus : DatabaseStatus :=
  ⟨"idle", false, none, false, none⟩

/-- Embeds `DatabaseStatus.pause_incoming_data` (src/model/database_audit.py,
lines 193-202). -/
def DatabaseStatus.pause_incoming_data (st : DatabaseStatus) (reason : String) :
    DatabaseStatus :=
  { st with is_paused := true, pause_reason := some reason, status := "paused" }

/-- Embeds `DatabaseStatus.resume_incoming_data` (src/model/database_audit.py,
lines 204-213). -/
def DatabaseStatus.resume_incoming_data (st : DatabaseStatus) : DatabaseStatus :=
  { st with is_paused := false, pause_reason := none, status := "idle" }

/-- Modelled from the spec: `DatabaseStatus.pause_matchmakers_data(reason)` is
called by src/api/control_panel_api.py but defined outside src; per the spec
it sets the matchmakers-specific pause flag and reason. -/
def DatabaseStatus.pause_matchmakers_data (st : DatabaseStatus)
    (reason : String) : DatabaseStatus :=
  { st with is_matchmakers_paused := true,
            matchmakers_pause_reason := some reason }

/-- Modelled from the spec: `DatabaseStatus.resume_matchmakers_data()` is
called by src/api/control_panel_api.py but defined outside src; per the spec
it clears the matchmakers-specific pause flag and reason. -/
def DatabaseStatus.resume_matchmakers_data (st : DatabaseStatus) :
    DatabaseStatus :=
  { st with is_matchmakers_paused := false, matchmakers_pause_reason := none }

/-- Embeds the admin route `pause_database` (src/api/control_panel_api.py,
lines 246-263): pausing globally also pauses matchmakers data with the same
reason. -/
def pause_database (st : DatabaseStatus) (reason : String) : DatabaseStatus :=
  (st.pause_incoming_data reason).pause_matchmakers_data reason

/-- Embeds the admin route `resume_database` (src/api/control_panel_api.py,
lines 266-282): resuming globally also resumes matchmakers data. -/
def resume_database (st : DatabaseStatus) : DatabaseStatus :=
  st.resume_incoming_data.resume_matchmakers_data

/-! ## Request handlers (src/api/matchmaking_api.py) -/

/-- A Flask-RESTful response: HTTP status, the `message` field, and any
further JSON fields of the response body. -/
structure ApiResponse where
  status : Nat
  message : String
  body : JsonObj

/-- Embeds the `matchmakers_write_allowed` decorator (src/api/
matchmaking_api.py, lines 20-30): when the matchmakers pause flag is set the
wrapped handler is not entered and a 403 carrying the pause reason is
returned. -/
def matchmakers_write_allowed (st : DatabaseStatus) : Option ApiResponse :=
  if st.is_matchmakers_paused then
    some ⟨403, "Matchmakers data is currently paused. Reason: " ++
            pyStr st.matchmakers_pause_reason, []⟩
  else none

/-- Python `container[k] = v` on a JSON payload: item assignment succeeds only
on a dict; on any other payload it raises TypeError (surfacing as the
handler's generic 500). -/
def jsonSetItem (v : JsonVal) (k : String) (x : JsonVal) : Except String JsonVal :=
  match v with
  | .obj fs => .ok (.obj (assocSet fs k x))
  | _ => .error "TypeError: item assignment on non-dict"

/-- Python `k in container` on a JSON payload: key test on dicts, substring
test on strings, element equality on lists; TypeError otherwise. -/
def jsonHasKey (v : JsonVal) (k : String) : Except String Bool :=
  match v with
  | .obj fs => .ok (assocFind fs k).isSome
  | .str s => .ok (strContains s k)
  | .arr xs => .ok (xs.any fun x => match x with | .str s => s == k | _ => false)
  | _ => .error "TypeError: argument is not iterable"

/-- Python `container.pop(k)` on a JSON payload: on a dict, remove the key
and yield its value; any other payload raises (string has no pop, list.pop
rejects a string index), surfacing as the handler's generic 500. -/
def jsonPop (v : JsonVal) (k : String) : Except String (JsonVal × JsonVal) :=
  match v with
  | .obj fs =>
      match assocFind fs k with
      | some x => .ok (x, .obj (assocRemove fs k))
      | none => .error "KeyError"
  | _ => .error "TypeError: pop is not supported here"

/-- Embeds `MatchmakersData.read` (src/model/matchmakers.py, lines 217-227);
the two timestamp fields are omitted, as in the record model. -/
def MatchmakersData.read (u : User) (r : MatchmakersData) : JsonVal :=
  .obj [("id", .num (r.id : Int)), ("user_id", .num (r.user_id : Int)),
        ("uid", .str u.uid), ("section", .str r.section_name),
        ("data", r.data)]

/-- Embeds `MatchmakingAPI._WRITE.post` (src/api/matchmaking_api.py, lines
65-104): gate check, required-field checks (`if not section`,
`if data is None`), then update-or-create for the given section.  A
ValueError from an invalid section is swallowed by the generic handler into a
500 with the store untouched. -/
def MatchmakingAPI.writePost (st : DatabaseStatus) (db : MatchDB) (u : User)
    (sec : Option String) (data : Option JsonVal) : ApiResponse × MatchDB :=
  match matchmakers_write_allowed st with
  | some resp => (resp, db)
  | none =>
    match sec with
    | none => (⟨400, "section field is required", []⟩, db)
    | some s =>
      if s == "" then (⟨400, "section field is required", []⟩, db)
      else
        match data with
        | none => (⟨400, "data field is required", []⟩, db)
        | some d =>
          match MatchmakersData.get_user_matchmakers_data db u.id (some s) with
          | row :: _ =>
              (⟨201, "Data updated for section " ++ s,
                 [("section", .str s), ("data", d)]⟩,
               MatchmakersData.update db row.id d)
          | [] =>
              match MatchmakersData.init u s d with
              | .error e => (⟨500, "Error writing data: " ++ e, []⟩, db)
              | .ok p =>
                match MatchmakersData.create db p with
                | .error e => (⟨500, "Error writing data: " ++ e, []⟩, db)
                | .ok (_, db2) =>
                    (⟨201, "Data created for section " ++ s,
                       [("section", .str s), ("data", d)]⟩, db2)

/-- Embeds `MatchmakingAPI._SETUP.post` (src/api/matchmaking_api.py, lines
106-129): gate check, then 409 when the user owns ANY section record
(`get_user_matchmakers_data` is called without a section filter), else create
an empty `profile` record and return its `read()`. -/
def MatchmakingAPI.setupPost (st : DatabaseStatus) (db : MatchDB) (u : User) :
    ApiResponse × MatchDB :=
  match matchmakers_write_allowed st with
  | some resp => (resp, db)
  | none =>
    match MatchmakersData.get_user_matchmakers_data db u.id none with
    | _ :: _ =>
        (⟨409, "Profile setup for " ++ u.uid ++ " already created", []⟩, db)
    | [] =>
        match MatchmakersData.init u "profile" (.obj []) with
        | .error e => (⟨500, "Error initializing profile setup: " ++ e, []⟩, db)
        | .ok p =>
          match MatchmakersData.create db p with
          | .error e =>
              (⟨500, "Error initializing profile setup: " ++ e, []⟩, db)
          | .ok (row, db2) =>
              (⟨201, "Profile setup initialized for " ++ u.uid,
                 [("data", MatchmakersData.read u row)]⟩, db2)

/-- Embeds `MatchmakingAPI._ADD.post` (src/api/matchmaking_api.py, lines
131-184): gate check, required-field checks, create the `profile` record with
`data = ` the empty dict when absent, then set `data[index] = value` and
persist. -/
def MatchmakingAPI.addPost (st : DatabaseStatus) (db : MatchDB) (u : User)
    (index : Option String) (data_value : Option JsonVal) :
    ApiResponse × MatchDB :=
  match matchmakers_write_allowed st with
  | some resp => (resp, db)
  | none =>
    match index with
    | none => (⟨400, "index field is required", []⟩, db)
    | some idx =>
      if idx == "" then (⟨400, "index field is required", []⟩, db)
      else
        match data_value with
        | none => (⟨400, "data field is required", []⟩, db)
        | some dv =>
          match MatchmakersData.get_user_matchmakers_data db u.id
              (some "profile") with
          | [] =>
              match MatchmakersData.init u "profile" (.obj []) with
              | .error e => (⟨500, "Error adding data: " ++ e, []⟩, db)
              | .ok p =>
                match MatchmakersData.create db p with
                | .error e => (⟨500, "Error adding data: " ++ e, []⟩, db)
                | .ok (row, db1) =>
                  let current_data :=
                    if pyTruthy row.data then row.data else .obj []
                  match jsonSetItem current_data idx dv with
                  | .error e => (⟨500, "Error adding data: " ++ e, []⟩, db1)
                  | .ok nd =>
                      (⟨201, "Data added to profile for " ++ u.uid,
                         [("index", .str idx), ("data", dv)]⟩,
                       MatchmakersData.update db1 row.id nd)
          | row :: _ =>
              let current_data :=
                if pyTruthy row.data then row.data else .obj []
              match jsonSetItem current_data idx dv with
              | .error e => (⟨500, "Error adding data: " ++ e, []⟩, db)
              | .ok nd =>
                  (⟨201, "Data added to profile for " ++ u.uid,
                     [("index", .str idx), ("data", dv)]⟩,
                   MatchmakersData.update db row.id nd)

/-- Embeds `MatchmakingAPI._ADD.delete` (src/api/matchmaking_api.py, lines
186-229): gate check, required-field check, 404 without a profile record,
404 returning the full document when the index is absent, otherwise pop the
index, persist, and return the removed value with the remaining document. -/
def MatchmakingAPI.addDelete (st : DatabaseStatus) (db : MatchDB) (u : User)
    (index : Option String) : ApiResponse × MatchDB :=
  match matchmakers_write_allowed st with
  | some resp => (resp, db)
  | none =>
    match index with
    | none => (⟨400, "index field is required", []⟩, db)
    | some idx =>
      if idx == "" then (⟨400, "index field is required", []⟩, db)
      else
        match MatchmakersData.get_user_matchmakers_data db u.id
            (some "profile") with
        | [] => (⟨404, "No profile setup found for " ++ u.uid, []⟩, db)
        | row :: _ =>
          let current_data := if pyTruthy row.data then row.data else .obj []
          match jsonHasKey current_data idx with
          | .error e => (⟨500, "Error deleting data: " ++ e, []⟩, db)
          | .ok false =>
              (⟨404, "index not found", [("full_data", current_data)]⟩, db)
          | .ok true =>
            match jsonPop current_data idx with
            | .error e => (⟨500, "Error deleting data: " ++ e, []⟩, db)
            | .ok (deleted, remaining) =>
                (⟨200, "Data at index \"" ++ idx ++ "\" deleted for " ++ u.uid,
                   [("deleted_data", deleted), ("remaining_data", remaining)]⟩,
                 MatchmakersData.update db row.id remaining)

/-- Embeds `MatchmakingAPI._SAVE_PROFILE_JSON.post` (src/api/
matchmaking_api.py, lines 257-297).  NOTE: unlike the four handlers above,
the source handler carries only `token_required` and NO
`matchmakers_write_allowed` decorator, so it never consults the write gate.
It rejects falsy `profile_data` with 400, otherwise stores the payload under
the `profile_quiz` key of the `profile` section (creating the record when
absent, preserving existing data otherwise); a ValueError maps to 400, other
exceptions to 500. -/
def MatchmakingAPI.savePost (st : DatabaseStatus) (db : MatchDB) (u : User)
    (profile_data : Option JsonVal) : ApiResponse × MatchDB :=
  let _ := st
  match profile_data with
  | none => (⟨400, "No profile_data provided", []⟩, db)
  | some pd =>
    if pyTruthy pd = false then (⟨400, "No profile_data provided", []⟩, db)
    else
      match MatchmakersData.get_user_matchmakers_data db u.id
          (some "profile") with
      | [] =>
          match MatchmakersData.init u "profile"
              (.obj [("profile_quiz", pd)]) with
          | .error e => (⟨400, "Value error: " ++ e, []⟩, db)
          | .ok p =>
            match MatchmakersData.create db p with
            | .error e => (⟨400, "Value error: " ++ e, []⟩, db)
            | .ok (row, db1) =>
                (⟨201, "Profile data saved for " ++ u.uid,
                   [("data", row.data)]⟩, db1)
      | row :: _ =>
          let current_data := if pyTruthy row.data then row.data else .obj []
          match jsonSetItem current_data "profile_quiz" pd with
          | .error e => (⟨500, "Error saving profile data: " ++ e, []⟩, db)
          | .ok nd =>
              (⟨201, "Profile data saved for " ++ u.uid, [("data", nd)]⟩,
               MatchmakersData.update db row.id nd)

/-! ## PII safety filter (src/model/pii_quiz.py) -/

/-- One entry of a profile quiz response sequence: the question (absent in the
model when Python `resp.get("question", "")` would fall back to the empty
string), the response text and the question type. -/
structure QuizEntry where
  question : Option String
  response : String
  qtype : String
deriving DecidableEq, Repr

/-- Python `resp.get("question", "")`. -/
def QuizEntry.questionText (e : QuizEntry) : String :=
  match e.question with
  | none => ""
  | some s => s

/-- Keywords that indicate PII questions (src/model/pii_quiz.py, line 98). -/
def pii_keywords : List String :=
  ["full name", "ssn", "where do you live", "address", "ip"]

/-- Inner predicate of `filter_safe_data` (src/model/pii_quiz.py, lines
102-105): the lowercased question contains one of the PII keywords. -/
def ProfileQuiz.is_pii (e : QuizEntry) : Bool :=
  pii_keywords.any fun kw => strContains (pyLower e.questionText) kw

/-- Embeds `ProfileQuiz.filter_safe_data` (src/model/pii_quiz.py, lines
82-110): a falsy or non-list argument yields `[]` (the non-list case is ruled
out here by typing); otherwise the loop appends exactly the non-PII
entries. -/
def ProfileQuiz.filter_safe_data (profile_data : List QuizEntry) :
    List QuizEntry :=
  if profile_data.isEmpty then []
  else
    profile_data.foldl
      (fun acc r => if ProfileQuiz.is_pii r then acc else acc ++ [r]) []

/-! ## Legacy file-backed variant (src/model/matchmaking.py) -/

/-- Python `setup["uid"] == uid` on one legacy record (records written by this
module always carry a `uid` key; comparison with a non-string value is
False). -/
def setupUidMatches (s : JsonObj) (uid : String) : Bool :=
  match assocFind s "uid" with
  | some (.str u) => u == uid
  | _ => false

/-- Embeds `_write_profile_setups` (src/model/matchmaking.py, lines 38-45) at
the JSON level: the whole file holds one JSON array of the record objects
(locking and the byte-level `json.dump` are outside the model). -/
def write_profile_setups (data : List JsonObj) : JsonVal :=
  .arr (data.map .obj)

/-- Embeds `profile_setup_exists` (src/model/matchmaking.py, lines 48-51). -/
def profile_setup_exists (uid : String) (setups : List JsonObj) : Bool :=
  setups.any fun s => setupUidMatches s uid

/-- Embeds `create_profile_setup` (src/model/matchmaking.py, lines 54-70):
`now` stands for `datetime.utcnow().isoformat()`.  When the uid already
exists nothing is written and `None` is returned; otherwise the new record is
the dict `id`, `uid`, `created_at` built in that insertion order — it carries
no `data` key — and is appended to the stored array. -/
def create_profile_setup (now uid : String) (setups : List JsonObj) :
    Option JsonObj × List JsonObj :=
  if setups.any (fun s => setupUidMatches s uid) then (none, setups)
  else
    let new_setup : JsonObj :=
      [("id", .num ((setups.length : Int) + 1)), ("uid", .str uid),
       ("created_at", .str now)]
    (some new_setup, setups ++ [new_setup])

/-! ## Personality classification adapter (src/api/anthropic_api.py) -/

/-- One personality type of the fixed closed set (src/api/anthropic_api.py,
lines 11-140).  Only the name and emoji are modelled; the `description`,
`strengths` and `recommendations` fields are inert static text that no code
path in src branches on. -/
structure PersonalityInfo where
  type_name : String
  emoji : String
deriving DecidableEq, Repr

/-- The fixed default outcome (`PERSONALITY_TYPES["The Peacemaker"]`). -/
def thePeacemaker : PersonalityInfo := ⟨"The Peacemaker", "🕊️"⟩

/-- Embeds the `PERSONALITY_TYPES` dict (src/api/anthropic_api.py, lines
11-140) as an association list in insertion order. -/
def PERSONALITY_TYPES : List (String × PersonalityInfo) :=
  [("The Leader", ⟨"The Leader", "👑"⟩),
   ("The Empath", ⟨"The Empath", "💖"⟩),
   ("The Analyst", ⟨"The Analyst", "🧠"⟩),
   ("The Adventurer", ⟨"The Adventurer", "🌟"⟩),
   ("The Creative", ⟨"The Creative", "🎨"⟩),
   ("The Peacemaker", thePeacemaker),
   ("The Guardian", ⟨"The Guardian", "🛡️"⟩),
   ("The Visionary", ⟨"The Visionary", "🔮"⟩)]

/-- Embeds the fuzzy-match loop of `analyze_personality` (src/api/
anthropic_api.py, lines 245-250): scan the dict in insertion order and return
the first entry whose lowercased name occurs inside the lowercased label. -/
def fuzzyScan (classified : String) :
    List (String × PersonalityInfo) → Option PersonalityInfo
  | [] => none
  | (name, info) :: rest =>
      if strContains (pyLower classified) (pyLower name) then some info
      else fuzzyScan classified rest

/-- Embeds the label-resolution logic of `analyze_personality` (src/api/
anthropic_api.py, lines 231-255), applied to the stripped completion string:
exact dict lookup first, then the fuzzy substring scan, then the fixed
Peacemaker default. -/
def classify_personality (classified_type : String) : PersonalityInfo :=
  match assocFind PERSONALITY_TYPES classified_type with
  | some info => info
  | none =>
    match fuzzyScan classified_type PERSONALITY_TYPES with
    | some info => info
    | none => thePeacemaker

/-! ## Bio safety adapter (src/api/groq_bio_api.py) -/

/-- Response of the `/analyze-bio-safety` route: HTTP status, the `success`
flag, the `analysis` object when present, whether the fixed fallback was
used, the optional `error` text and the optional echoed `section`. -/
structure BioSafetyResponse where
  status : Nat
  success : Bool
  analysis : Option JsonVal
  fallbackUsed : Bool
  errorText : Option String
  sectionOut : Option String

/-- The fixed fallback report of the JSON-decode-failure branch
(src/api/groq_bio_api.py, lines 103-114). -/
def bioFallbackParse : JsonVal :=
  .obj [("is_safe", .bool true), ("risk_score", .num 0),
        ("issues_found", .arr []), ("severity", .str "safe"),
        ("message", .str "No obvious safety issues detected"),
        ("suggestions", .arr [])]

/-- The fixed fallback report of the outer exception branch
(src/api/groq_bio_api.py, lines 116-132). -/
def bioFallbackOuter : JsonVal :=
  .obj [("is_safe", .bool true), ("risk_score", .num 0),
        ("issues_found", .arr []), ("severity", .str "safe"),
        ("message", .str "AI analysis unavailable, but basic check passed"),
        ("suggestions", .arr [])]

/-- Embeds the markdown-fence cleanup of `analyze_bio_safety`
(src/api/groq_bio_api.py, lines 84-88): take what stands between the first
fence pair, preferring a ```json fence, and strip it. -/
def stripFences (s : String) : String :=
  if strContains s "```json" then
    match dropThroughFirst "```json".toList s.toList with
    | some restChars => pyStrip ⟨takeBeforeFirst "```".toList restChars⟩
    | none => s
  else if strContains s "```" then
    match dropThroughFirst "```".toList s.toList with
    | some restChars => pyStrip ⟨takeBeforeFirst "```".toList restChars⟩
    | none => s
  else s

/-- Embeds `analyze_bio_safety` (src/api/groq_bio_api.py, lines 22-132).
`parseJson` stands for the external `json.loads`, returning `none` exactly
when the library would raise `JSONDecodeError`; `upstream` is the outcome of
the external Groq call (`.error` when the client raises).  Every failure maps
to a 200 response with `success = true` and a fixed fallback report. -/
def analyze_bio_safety (parseJson : String → Option JsonVal)
    (bio_text sectionParam : String) (upstream : Except String String) :
    BioSafetyResponse :=
  if bio_text == "" then ⟨400, false, none, false, some "No bio text provided", none⟩
  else
    match upstream with
    | .error e => ⟨200, true, some bioFallbackOuter, true, some e, none⟩
    | .ok content =>
      let ai_response := pyStrip content
      match parseJson (stripFences ai_response) with
      | some v => ⟨200, true, some v, false, none, some sectionParam⟩
      | none => ⟨200, true, some bioFallbackParse, true, none, none⟩

/-! ## Spec-level predicates -/

/-- Store invariant: every persisted record carries an allowed section name. -/
def sectionsValid (db : MatchDB) : Prop :=
  ∀ r ∈ db, r.section_name ∈ PII_SECTIONS

/-- Shape of a legacy file-backed record as actually persisted: exactly the
keys `id`, `uid`, `created_at`, in that order. -/
def legacyShape (r : JsonObj) : Prop :=
  r.map Prod.fst = ["id", "uid", "created_at"]

/-- The 403 response produced by the write gate when paused with reason `R`. -/
def gateClosedResp (R : String) : ApiResponse :=
  ⟨403, "Matchmakers data is currently paused. Reason: " ++ R, []⟩

/-! ## Helper lemmas -/

/-- Filtering after a map commutes with the map when the map does not change
the predicate. -/
theorem filter_map_of_pred_inv {α : Type} (f : α → α) (p : α → Bool)
    (l : List α) (h : ∀ a, p (f a) = p a) :
    (l.map f).filter p = (l.filter p).map f := by
  induction l with
  | nil => rfl
  | cons a t ih =>
      simp only [List.map_cons, List.filter_cons, h a]
      cases hp : p a <;> simp [ih]

/-- The append-accumulator loop of `filter_safe_data` computes a filter. -/
theorem foldl_append_eq_filter {α : Type} (p : α → Bool) (l acc : List α) :
    l.foldl (fun acc r => if p r then acc else acc ++ [r]) acc =
      acc ++ l.filter (fun r => !p r) := by
  induction l generalizing acc with
  | nil => simp
  | cons a t ih =>
      simp only [List.foldl_cons, List.filter_cons]
      cases hp : p a <;> simp [ih]

theorem assocFind_of_not_mem_keys {α : Type} {l : List (String × α)}
    {k : String} (h : k ∉ l.map Prod.fst) : assocFind l k = none := by
  induction l with
  | nil => rfl
  | cons a t ih =>
      simp only [List.map_cons, List.mem_cons] at h
      push_neg at h
      have hne : a.1 ≠ k := fun e => h.1 e.symm
      simp only [assocFind, if_neg hne]
      exact ih h.2

theorem assocFind_isSome_of_mem_keys {α : Type} {l : List (String × α)}
    {k : String} (h : k ∈ l.map Prod.fst) : (assocFind l k).isSome := by
  induction l with
  | nil => simp at h
  | cons a t ih =>
      simp only [List.map_cons, List.mem_cons] at h
      by_cases he : a.1 = k
      · simp [assocFind, he]
      · rcases h with h | h
        · exact absurd h.symm he
        · simpa [assocFind, he] using ih h

theorem assocFind_mem {α : Type} {l : List (String × α)} {k : String} {v : α}
    (h : assocFind l k = some v) : (k, v) ∈ l := by
  induction l with
  | nil => simp [assocFind] at h
  | cons a t ih =>
      obtain ⟨a1, a2⟩ := a
      by_cases he : a1 = k
      · subst he
        simp only [assocFind, if_pos rfl] at h
        obtain rfl := Option.some.inj h
        exact List.mem_cons_self _ _
      · simp only [assocFind, if_neg he] at h
        exact List.mem_cons_of_mem _ (ih h)

theorem assocFind_set_self {α : Type} (l : List (String × α)) (k : String)
    (v : α) : assocFind (assocSet l k v) k = some v := by
  induction l with
  | nil => simp [assocSet, assocFind]
  | cons a t ih =>
      by_cases he : a.1 = k
      · simp [assocSet, assocFind, he]
      · simp [assocSet, assocFind, he, ih]

theorem assocFind_set_ne {α : Type} (l : List (String × α)) (k k' : String)
    (v : α) (h : k' ≠ k) :
    assocFind (assocSet l k v) k' = assocFind l k' := by
  have h' : ¬k = k' := fun e => h e.symm
  induction l with
  | nil => simp [assocSet, assocFind, h']
  | cons a t ih =>
      by_cases he : a.1 = k
      · simp [assocSet, assocFind, he, h']
      · simp only [assocSet, if_neg he, assocFind]
        by_cases he' : a.1 = k' <;> simp [he', ih]

/-- Every allowed section name is nonempty (so it passes Python `if section:`
truthiness checks). -/
theorem mem_PII_SECTIONS_ne_empty {s : String} (h : s ∈ PII_SECTIONS) :
    (s == "") = false := by
  fin_cases h <;> rfl

theorem get_user_append (db1 db2 : MatchDB) (uid : Nat) (sec : Option String) :
    MatchmakersData.get_user_matchmakers_data (db1 ++ db2) uid sec =
      MatchmakersData.get_user_matchmakers_data db1 uid sec ++
        MatchmakersData.get_user_matchmakers_data db2 uid sec := by
  unfold MatchmakersData.get_user_matchmakers_data
  cases sec with
  | none => simp [List.filter_append]
  | some s =>
      dsimp only
      by_cases hs : (s == "") = true
      · rw [if_pos hs, if_pos hs, if_pos hs]
        simp [List.filter_append]
      · rw [if_neg hs, if_neg hs, if_neg hs]
        simp [List.filter_append]

theorem get_user_update (db : MatchDB) (i : Nat) (d : JsonVal) (uid : Nat)
    (sec : Option String) :
    MatchmakersData.get_user_matchmakers_data (MatchmakersData.update db i d)
        uid sec =
      (MatchmakersData.get_user_matchmakers_data db uid sec).map
        (fun r => if r.id = i then { r with data := d } else r) := by
  have hcomm : ∀ (p : MatchmakersData → Bool) (l : MatchDB),
      (∀ r : MatchmakersData, p { r with data := d } = p r) →
      (l.map fun r => if r.id = i then { r with data := d } else r).filter p =
        (l.filter p).map
          fun r => if r.id = i then { r with data := d } else r := by
    intro p l hp
    refine filter_map_of_pred_inv _ _ _ fun a => ?_
    by_cases ha : a.id = i
    · rw [if_pos ha]; exact hp a
    · rw [if_neg ha]
  unfold MatchmakersData.get_user_matchmakers_data MatchmakersData.update
  cases sec with
  | none => exact hcomm _ db fun r => rfl
  | some s =>
      dsimp only
      by_cases hs : (s == "") = true
      · rw [if_pos hs, if_pos hs]
        exact hcomm _ db fun r => rfl
      · rw [if_neg hs, if_neg hs]
        rw [hcomm (fun r => r.user_id == uid) db fun r => rfl,
          hcomm (fun r => r.section_name == s)
            (db.filter fun r => r.user_id == uid) fun r => rfl]

theorem init_ok_of_mem {u : User} {s : String} {d : JsonVal}
    (hs : s ∈ PII_SECTIONS) :
    MatchmakersData.init u s d = .ok ⟨u.id, s, d⟩ := by
  unfold MatchmakersData.init MatchmakersData.validate_section
  rw [if_pos hs]

theorem init_error_of_not_mem {u : User} {s : String} {d : JsonVal}
    (hs : s ∉ PII_SECTIONS) :
    MatchmakersData.init u s d = .error ("Invalid PII section " ++ s) := by
  unfold MatchmakersData.init MatchmakersData.validate_section
  rw [if_neg hs]

theorem init_ok_inv {u : User} {s : String} {d : JsonVal} {p : PendingRecord}
    (h : MatchmakersData.init u s d = .ok p) :
    s ∈ PII_SECTIONS ∧ p = ⟨u.id, s, d⟩ := by
  by_cases hs : s ∈ PII_SECTIONS
  · rw [init_ok_of_mem hs] at h
    exact ⟨hs, (Except.ok.inj h).symm⟩
  · rw [init_error_of_not_mem hs] at h
    exact absurd h (by simp)

theorem create_ok_inv {db : MatchDB} {p : PendingRecord}
    {row : MatchmakersData} {db' : MatchDB}
    (h : MatchmakersData.create db p = .ok (row, db')) :
    row = ⟨nextId db, p.user_id, p.section_name, p.data⟩ ∧ db' = db ++ [row] := by
  unfold MatchmakersData.create at h
  obtain ⟨h1, h2⟩ := Prod.mk.injEq .. ▸ Except.ok.inj h
  exact ⟨h1.symm, by rw [← h2, h1]⟩

theorem sectionsValid_nil : sectionsValid [] := by
  intro r hr
  exact absurd hr (List.not_mem_nil r)

theorem sectionsValid_update {db : MatchDB} (h : sectionsValid db) (i : Nat)
    (d : JsonVal) : sectionsValid (MatchmakersData.update db i d) := by
  intro r hr
  obtain ⟨r0, hr0, rfl⟩ := List.mem_map.1 hr
  by_cases hi : r0.id = i
  · rw [if_pos hi]
    exact h r0 hr0
  · rw [if_neg hi]
    exact h r0 hr0

theorem sectionsValid_append {db : MatchDB} {row : MatchmakersData}
    (h : sectionsValid db) (hrow : row.section_name ∈ PII_SECTIONS) :
    sectionsValid (db ++ [row]) := by
  intro r hr
  rcases List.mem_append.1 hr with hr | hr
  · exact h r hr
  · obtain rfl := List.mem_singleton.1 hr
    exact hrow

theorem mem_of_mem_get {db : MatchDB} {uid : Nat} {sec : Option String}
    {r : MatchmakersData}
    (h : r ∈ MatchmakersData.get_user_matchmakers_data db uid sec) : r ∈ db := by
  unfold MatchmakersData.get_user_matchmakers_data at h
  cases sec with
  | none => exact List.mem_of_mem_filter h
  | some s =>
      dsimp only at h
      by_cases hs : (s == "") = true
      · rw [if_pos hs] at h
        exact List.mem_of_mem_filter h
      · rw [if_neg hs] at h
        exact List.mem_of_mem_filter (List.mem_of_mem_filter h)

theorem get_eq_nil_of_invalid {db : MatchDB} {uid : Nat} {s : String}
    (h : sectionsValid db) (hs : s ∉ PII_SECTIONS)
    (hne : (s == "") = false) :
    MatchmakersData.get_user_matchmakers_data db uid (some s) = [] := by
  unfold MatchmakersData.get_user_matchmakers_data
  dsimp only
  rw [if_neg (by simp [hne])]
  refine List.filter_eq_nil_iff.2 fun r hr hsec => ?_
  have hmem : r.section_name ∈ PII_SECTIONS := h r (List.mem_of_mem_filter hr)
  exact hs (eq_of_beq hsec ▸ hmem)

theorem writePost_gate_closed (st : DatabaseStatus) (db : MatchDB) (u : User)
    (sec : Option String) (dat : Option JsonVal) (R : String)
    (hp : st.is_matchmakers_paused = true)
    (hr : st.matchmakers_pause_reason = some R) :
    MatchmakingAPI.writePost st db u sec dat = (gateClosedResp R, db) := by
  unfold MatchmakingAPI.writePost matchmakers_write_allowed
  simp [hp, hr, gateClosedResp, pyStr]

theorem setupPost_gate_closed (st : DatabaseStatus) (db : MatchDB) (u : User)
    (R : String) (hp : st.is_matchmakers_paused = true)
    (hr : st.matchmakers_pause_reason = some R) :
    MatchmakingAPI.setupPost st db u = (gateClosedResp R, db) := by
  unfold MatchmakingAPI.setupPost matchmakers_write_allowed
  simp [hp, hr, gateClosedResp, pyStr]

theorem addPost_gate_closed (st : DatabaseStatus) (db : MatchDB) (u : User)
    (index : Option String) (dv : Option JsonVal) (R : String)
    (hp : st.is_matchmakers_paused = true)
    (hr : st.matchmakers_pause_reason = some R) :
    MatchmakingAPI.addPost st db u index dv = (gateClosedResp R, db) := by
  unfold MatchmakingAPI.addPost matchmakers_write_allowed
  simp [hp, hr, gateClosedResp, pyStr]

theorem addDelete_gate_closed (st : DatabaseStatus) (db : MatchDB) (u : User)
    (index : Option String) (R : String)
    (hp : st.is_matchmakers_paused = true)
    (hr : st.matchmakers_pause_reason = some R) :
    MatchmakingAPI.addDelete st db u index = (gateClosedResp R, db) := by
  unfold MatchmakingAPI.addDelete matchmakers_write_allowed
  simp [hp, hr, gateClosedResp, pyStr]

theorem addPost_creates (st : DatabaseStatus) (db : MatchDB) (u : User)
    (k : String) (v : JsonVal)
    (hgate : st.is_matchmakers_paused = false)
    (hk : (k == "") = false)
    (hnone : MatchmakersData.get_user_matchmakers_data db u.id
      (some "profile") = []) :
    MatchmakingAPI.addPost st db u (some k) (some v) =
      (⟨201, "Data added to profile for " ++ u.uid,
         [("index", .str k), ("data", v)]⟩,
       MatchmakersData.update (db ++ [⟨nextId db, u.id, "profile", .obj []⟩])
         (nextId db) (.obj [(k, v)])) := by
  have hinit : MatchmakersData.init u "profile" (.obj []) =
      .ok ⟨u.id, "profile", .obj []⟩ := init_ok_of_mem (by decide)
  unfold MatchmakingAPI.addPost matchmakers_write_allowed
  simp [hgate, hk, hnone, hinit, MatchmakersData.create, jsonSetItem, assocSet,
    pyTruthy]

theorem addPost_updates (st : DatabaseStatus) (db : MatchDB) (u : User)
    (k : String) (v : JsonVal) (row : MatchmakersData) (rest : MatchDB)
    (fields : JsonObj)
    (hgate : st.is_matchmakers_paused = false)
    (hk : (k == "") = false)
    (hget : MatchmakersData.get_user_matchmakers_data db u.id
      (some "profile") = row :: rest)
    (hdata : row.data = .obj fields) :
    MatchmakingAPI.addPost st db u (some k) (some v) =
      (⟨201, "Data added to profile for " ++ u.uid,
         [("index", .str k), ("data", v)]⟩,
       MatchmakersData.update db row.id (.obj (assocSet fields k v))) := by
  unfold MatchmakingAPI.addPost matchmakers_write_allowed
  cases fields with
  | nil => simp [hgate, hk, hget, hdata, jsonSetItem, pyTruthy]
  | cons f fs => simp [hgate, hk, hget, hdata, jsonSetItem, pyTruthy]

theorem writePost_sec_missing (st : DatabaseStatus) (db : MatchDB) (u : User)
    (dat : Option JsonVal) (hgate : st.is_matchmakers_paused = false) :
    MatchmakingAPI.writePost st db u none dat =
      (⟨400, "section field is required", []⟩, db) := by
  unfold MatchmakingAPI.writePost matchmakers_write_allowed
  simp [hgate]

theorem writePost_sec_empty (st : DatabaseStatus) (db : MatchDB) (u : User)
    (s : String) (dat : Option JsonVal)
    (hgate : st.is_matchmakers_paused = false) (hs : (s == "") = true) :
    MatchmakingAPI.writePost st db u (some s) dat =
      (⟨400, "section field is required", []⟩, db) := by
  unfold MatchmakingAPI.writePost matchmakers_write_allowed
  simp [hgate, hs]

theorem writePost_data_missing (st : DatabaseStatus) (db : MatchDB) (u : User)
    (s : String) (hgate : st.is_matchmakers_paused = false)
    (hs : (s == "") = false) :
    MatchmakingAPI.writePost st db u (some s) none =
      (⟨400, "data field is required", []⟩, db) := by
  unfold MatchmakingAPI.writePost matchmakers_write_allowed
  simp [hgate, hs]

theorem writePost_updates (st : DatabaseStatus) (db : MatchDB) (u : User)
    (s : String) (d : JsonVal) (row : MatchmakersData) (rest : MatchDB)
    (hgate : st.is_matchmakers_paused = false) (hs : (s == "") = false)
    (hget : MatchmakersData.get_user_matchmakers_data db u.id (some s) =
      row :: rest) :
    MatchmakingAPI.writePost st db u (some s) (some d) =
      (⟨201, "Data updated for section " ++ s,
         [("section", .str s), ("data", d)]⟩,
       MatchmakersData.update db row.id d) := by
  unfold MatchmakingAPI.writePost matchmakers_write_allowed
  simp [hgate, hs, hget]

theorem writePost_creates (st : DatabaseStatus) (db : MatchDB) (u : User)
    (s : String) (d : JsonVal)
    (hgate : st.is_matchmakers_paused = false) (hsec : s ∈ PII_SECTIONS)
    (hget : MatchmakersData.get_user_matchmakers_data db u.id (some s) = []) :
    MatchmakingAPI.writePost st db u (some s) (some d) =
      (⟨201, "Data created for section " ++ s,
         [("section", .str s), ("data", d)]⟩,
       db ++ [⟨nextId db, u.id, s, d⟩]) := by
  unfold MatchmakingAPI.writePost matchmakers_write_allowed
  simp [hgate, mem_PII_SECTIONS_ne_empty hsec, hget, @init_ok_of_mem u s d hsec,
    MatchmakersData.create]

theorem writePost_no_record_invalid (st : DatabaseStatus) (db : MatchDB)
    (u : User) (s : String) (d : JsonVal)
    (hgate : st.is_matchmakers_paused = false) (hs : (s == "") = false)
    (hget : MatchmakersData.get_user_matchmakers_data db u.id (some s) = [])
    (hsec : s ∉ PII_SECTIONS) :
    MatchmakingAPI.writePost st db u (some s) (some d) =
      (⟨500, "Error writing data: " ++ ("Invalid PII section " ++ s), []⟩,
       db) := by
  unfold MatchmakingAPI.writePost matchmakers_write_allowed
  simp [hgate, hs, hget, @init_error_of_not_mem u s d hsec]

theorem setupPost_conflict (st : DatabaseStatus) (db : MatchDB) (u : User)
    (row : MatchmakersData) (rest : MatchDB)
    (hgate : st.is_matchmakers_paused = false)
    (hget : MatchmakersData.get_user_matchmakers_data db u.id none =
      row :: rest) :
    MatchmakingAPI.setupPost st db u =
      (⟨409, "Profile setup for " ++ u.uid ++ " already created", []⟩, db) := by
  unfold MatchmakingAPI.setupPost matchmakers_write_allowed
  simp [hgate, hget]

theorem setupPost_creates (st : DatabaseStatus) (db : MatchDB) (u : User)
    (hgate : st.is_matchmakers_paused = false)
    (hget : MatchmakersData.get_user_matchmakers_data db u.id none = []) :
    MatchmakingAPI.setupPost st db u =
      (⟨201, "Profile setup initialized for " ++ u.uid,
         [("data", MatchmakersData.read u ⟨nextId db, u.id, "profile",
            .obj []⟩)]⟩,
       db ++ [⟨nextId db, u.id, "profile", .obj []⟩]) := by
  have hinit : MatchmakersData.init u "profile" (.obj []) =
      .ok ⟨u.id, "profile", .obj []⟩ := init_ok_of_mem (by decide)
  unfold MatchmakingAPI.setupPost matchmakers_write_allowed
  simp [hgate, hget, hinit, MatchmakersData.create]

theorem addDelete_no_record (st : DatabaseStatus) (db : MatchDB) (u : User)
    (k : String) (hgate : st.is_matchmakers_paused = false)
    (hk : (k == "") = false)
    (hnone : MatchmakersData.get_user_matchmakers_data db u.id
      (some "profile") = []) :
    MatchmakingAPI.addDelete st db u (some k) =
      (⟨404, "No profile setup found for " ++ u.uid, []⟩, db) := by
  unfold MatchmakingAPI.addDelete matchmakers_write_allowed
  simp [hgate, hk, hnone]

theorem addDelete_key_missing (st : DatabaseStatus) (db : MatchDB) (u : User)
    (k : String) (row : MatchmakersData) (rest : MatchDB) (fields : JsonObj)
    (hgate : st.is_matchmakers_paused = false) (hk : (k == "") = false)
    (hget : MatchmakersData.get_user_matchmakers_data db u.id
      (some "profile") = row :: rest)
    (hdata : row.data = .obj fields)
    (hfind : assocFind fields k = none) :
    MatchmakingAPI.addDelete st db u (some k) =
      (⟨404, "index not found", [("full_data", .obj fields)]⟩, db) := by
  unfold MatchmakingAPI.addDelete matchmakers_write_allowed
  cases fields with
  | nil => simp [hgate, hk, hget, hdata, jsonHasKey, pyTruthy, assocFind]
  | cons f fs =>
      simp [hgate, hk, hget, hdata, jsonHasKey, pyTruthy, hfind]

theorem addDelete_removes (st : DatabaseStatus) (db : MatchDB) (u : User)
    (k : String) (v : JsonVal) (row : MatchmakersData) (rest : MatchDB)
    (fields : JsonObj)
    (hgate : st.is_matchmakers_paused = false) (hk : (k == "") = false)
    (hget : MatchmakersData.get_user_matchmakers_data db u.id
      (some "profile") = row :: rest)
    (hdata : row.data = .obj fields)
    (hfind : assocFind fields k = some v) :
    MatchmakingAPI.addDelete st db u (some k) =
      (⟨200, "Data at index \"" ++ k ++ "\" deleted for " ++ u.uid,
         [("deleted_data", v), ("remaining_data", .obj (assocRemove fields k))]⟩,
       MatchmakersData.update db row.id (.obj (assocRemove fields k))) := by
  unfold MatchmakingAPI.addDelete matchmakers_write_allowed
  cases fields with
  | nil => simp [assocFind] at hfind
  | cons f fs =>
      simp [hgate, hk, hget, hdata, jsonHasKey, jsonPop, pyTruthy, hfind]

theorem writePost_sectionsValid (st : DatabaseStatus) (db : MatchDB) (u : User)
    (sec : Option String) (dat : Option JsonVal) (h : sectionsValid db) :
    sectionsValid (MatchmakingAPI.writePost st db u sec dat).2 := by
  unfold MatchmakingAPI.writePost
  split
  · exact h
  · split
    · exact h
    · split
      · exact h
      · split
        · exact h
        · split
          · exact sectionsValid_update h _ _
          · split
            · exact h
            · next p hinitEq =>
              split
              · exact h
              · next row db2 hcreateEq =>
                obtain ⟨hsec, rfl⟩ := init_ok_inv hinitEq
                obtain ⟨hrow, hdb⟩ := create_ok_inv hcreateEq
                subst hdb
                exact sectionsValid_append h (by rw [hrow]; exact hsec)

theorem setupPost_sectionsValid (st : DatabaseStatus) (db : MatchDB) (u : User)
    (h : sectionsValid db) :
    sectionsValid (MatchmakingAPI.setupPost st db u).2 := by
  unfold MatchmakingAPI.setupPost
  split
  · exact h
  · split
    · exact h
    · split
      · exact h
      · next p hinitEq =>
        split
        · exact h
        · next row db2 hcreateEq =>
          obtain ⟨hsec, rfl⟩ := init_ok_inv hinitEq
          obtain ⟨hrow, hdb⟩ := create_ok_inv hcreateEq
          subst hdb
          exact sectionsValid_append h (by rw [hrow]; exact hsec)

theorem addPost_sectionsValid (st : DatabaseStatus) (db : MatchDB) (u : User)
    (index : Option String) (dv : Option JsonVal) (h : sectionsValid db) :
    sectionsValid (MatchmakingAPI.addPost st db u index dv).2 := by
  unfold MatchmakingAPI.addPost
  split
  · exact h
  · split
    · exact h
    · split
      · exact h
      · split
        · exact h
        · split
          · split
            · exact h
            · next p hinitEq =>
              split
              · exact h
              · next row db1 hcreateEq =>
                obtain ⟨hsec, rfl⟩ := init_ok_inv hinitEq
                obtain ⟨hrow, hdb⟩ := create_ok_inv hcreateEq
                subst hdb
                have h1 : sectionsValid (db ++ [row]) :=
                  sectionsValid_append h (by rw [hrow]; exact hsec)
                dsimp only
                split
                · exact h1
                · exact sectionsValid_update h1 _ _
          · dsimp only
            split
            · exact h
            · exact sectionsValid_update h _ _

theorem addDelete_sectionsValid (st : DatabaseStatus) (db : MatchDB) (u : User)
    (index : Option String) (h : sectionsValid db) :
    sectionsValid (MatchmakingAPI.addDelete st db u index).2 := by
  unfold MatchmakingAPI.addDelete
  dsimp only
  repeat' split
  all_goals first
    | exact h
    | exact sectionsValid_update h _ _

theorem savePost_sectionsValid (st : DatabaseStatus) (db : MatchDB) (u : User)
    (pd : Option JsonVal) (h : sectionsValid db) :
    sectionsValid (MatchmakingAPI.savePost st db u pd).2 := by
  unfold MatchmakingAPI.savePost
  split
  · exact h
  · split
    · exact h
    · split
      · split
        · exact h
        · next p hinitEq =>
          split
          · exact h
          · next row db1 hcreateEq =>
            obtain ⟨hsec, rfl⟩ := init_ok_inv hinitEq
            obtain ⟨hrow, hdb⟩ := create_ok_inv hcreateEq
            subst hdb
            exact sectionsValid_append h (by rw [hrow]; exact hsec)
      · dsimp only
        split
        · exact h
        · exact sectionsValid_update h _ _

theorem writePost_paused (st : DatabaseStatus) (db : MatchDB) (u : User)
    (sec : Option String) (dat : Option JsonVal)
    (hp : st.is_matchmakers_paused = true) :
    MatchmakingAPI.writePost st db u sec dat =
      (⟨403, "Matchmakers data is currently paused. Reason: " ++
          pyStr st.matchmakers_pause_reason, []⟩, db) := by
  unfold MatchmakingAPI.writePost matchmakers_write_allowed
  simp [hp]

theorem filter_safe_eq_filter (xs : List QuizEntry) :
    ProfileQuiz.filter_safe_data xs =
      xs.filter fun r => !ProfileQuiz.is_pii r := by
  unfold ProfileQuiz.filter_safe_data
  by_cases hx : xs.isEmpty = true
  · rw [if_pos hx]
    cases xs with
    | nil => rfl
    | cons a t => simp [List.isEmpty] at hx
  · rw [if_neg hx]
    simpa using foldl_append_eq_filter ProfileQuiz.is_pii xs []

theorem fuzzyScan_eq_find (c : String)
    (l : List (String × PersonalityInfo)) :
    fuzzyScan c l =
      (l.find? fun p => strContains (pyLower c) (pyLower p.1)).map
        Prod.snd := by
  induction l with
  | nil => rfl
  | cons a t ih =>
      obtain ⟨n, i⟩ := a
      by_cases hc : strContains (pyLower c) (pyLower n) = true
      · simp [fuzzyScan, List.find?, hc]
      · simp only [Bool.not_eq_true] at hc
        simp [fuzzyScan, List.find?, hc, ih]

/-! ## Claim theorems -/

/-- Claim C1, counterexample: with the matchmakers gate paused (reason
"maintenance") and an empty store, the quiz-save handler
(`_SAVE_PROFILE_JSON.post`, which carries no `matchmakers_write_allowed`
decorator) still answers 201 and persists a record, so it is false that every
mutating profile-section operation fails with GateClosed and leaves the
stored documents unchanged while the gate is paused. -/
theorem c1_counterexample_quiz_save_not_gated :
    (MatchmakingAPI.savePost
        (DatabaseStatus.pause_matchmakers_data DatabaseStatus.initialStatus
          "maintenance")
        [] ⟨1, "u1"⟩ (some (.str "quiz-answers"))).1.status = 201 ∧
    (MatchmakingAPI.savePost
        (DatabaseStatus.pause_matchmakers_data DatabaseStatus.initialStatus
          "maintenance")
        [] ⟨1, "u1"⟩ (some (.str "quiz-answers"))).2.length = 1 :=
  ⟨rfl, rfl⟩

/-- Claim C1 (amended): while the matchmakers write gate is paused with
reason R — whether paused directly or through the cascading global
`pause_database` — the four gated operations (full-document write, setup,
keyed field add, keyed field remove) each fail with the 403 gate-closed
response carrying R and leave the store unchanged, and after
`resume_matchmakers_data` the same full-document write succeeds with 201.
The quiz-save operation is excluded: its handler never consults the gate
(see the counterexample). -/
theorem c1_gate_blocks_gated_writes (st : DatabaseStatus) (db : MatchDB)
    (u : User) (R sec : String) (d : JsonVal) (idx : Option String)
    (dv : Option JsonVal)
    (hp : st.is_matchmakers_paused = true)
    (hr : st.matchmakers_pause_reason = some R)
    (hsec : sec ∈ PII_SECTIONS) :
    MatchmakingAPI.writePost st db u (some sec) (some d) =
      (gateClosedResp R, db) ∧
    MatchmakingAPI.setupPost st db u = (gateClosedResp R, db) ∧
    MatchmakingAPI.addPost st db u idx dv = (gateClosedResp R, db) ∧
    MatchmakingAPI.addDelete st db u idx = (gateClosedResp R, db) ∧
    (∀ st0 : DatabaseStatus,
       (pause_database st0 R).is_matchmakers_paused = true ∧
       (pause_database st0 R).matchmakers_pause_reason = some R) ∧
    (MatchmakingAPI.writePost st.resume_matchmakers_data db u (some sec)
        (some d)).1.status = 201 := by
  refine ⟨writePost_gate_closed st db u (some sec) (some d) R hp hr,
    setupPost_gate_closed st db u R hp hr,
    addPost_gate_closed st db u idx dv R hp hr,
    addDelete_gate_closed st db u idx R hp hr,
    fun st0 => ⟨rfl, rfl⟩, ?_⟩
  have hgate : st.resume_matchmakers_data.is_matchmakers_paused = false := rfl
  have hne := mem_PII_SECTIONS_ne_empty hsec
  cases hget : MatchmakersData.get_user_matchmakers_data db u.id (some sec) with
  | cons row rest =>
      rw [writePost_updates st.resume_matchmakers_data db u sec d row rest
        hgate hne hget]
  | nil =>
      rw [writePost_creates st.resume_matchmakers_data db u sec d hgate hsec
        hget]

/-- Witness for C1: the gate blocks a concrete write with the concrete reason
"maintenance", and the same write succeeds after resume. -/
theorem c1_gate_witness :
    MatchmakingAPI.writePost
        (DatabaseStatus.pause_matchmakers_data DatabaseStatus.initialStatus
          "maintenance")
        [] ⟨1, "u1"⟩ (some "basic") (some (.str "x")) =
      (gateClosedResp "maintenance", []) ∧
    (MatchmakingAPI.writePost
        (DatabaseStatus.pause_matchmakers_data DatabaseStatus.initialStatus
          "maintenance").resume_matchmakers_data
        [] ⟨1, "u1"⟩ (some "basic") (some (.str "x"))).1.status = 201 :=
  ⟨(c1_gate_blocks_gated_writes
      (DatabaseStatus.pause_matchmakers_data DatabaseStatus.initialStatus
        "maintenance")
      [] ⟨1, "u1"⟩ "maintenance" "basic" (.str "x") (some "k") none rfl rfl
      (by decide)).1,
   (c1_gate_blocks_gated_writes
      (DatabaseStatus.pause_matchmakers_data DatabaseStatus.initialStatus
        "maintenance")
      [] ⟨1, "u1"⟩ "maintenance" "basic" (.str "x") (some "k") none rfl rfl
      (by decide)).2.2.2.2.2⟩

/-- Claim C2: the `matchmakers_data` schema declares no unique constraint on
`(user_id, section)`, so a second `create` for the same user and section does
not raise the documented already-exists ValueError: both creates succeed and
the store afterwards holds TWO records for (user 1, section "profile"), the
original one untouched and a duplicate beside it. -/
theorem c2_duplicate_create_not_conflict :
    ∃ p1 row1 db1 p2 row2 db2,
      MatchmakersData.init ⟨1, "u1"⟩ "profile" (.str "first") = .ok p1 ∧
      MatchmakersData.create [] p1 = .ok (row1, db1) ∧
      MatchmakersData.init ⟨1, "u1"⟩ "profile" (.str "second") = .ok p2 ∧
      MatchmakersData.create db1 p2 = .ok (row2, db2) ∧
      (MatchmakersData.get_user_matchmakers_data db2 1
          (some "profile")).map (·.data) = [.str "first", .str "second"] :=
  ⟨_, _, _, _, _, _, rfl, rfl, rfl, rfl, rfl⟩

/-- Claim C3: a section value outside the fixed enumeration makes record
construction fail with the validation error, a full-document write of such a
section persists nothing (500, store unchanged), and the section-validity
invariant is preserved by every store-mutating handler. -/
theorem c3_section_enum_invariant (s : String) (hs : s ∉ PII_SECTIONS) :
    (∀ (u : User) (d : JsonVal),
       MatchmakersData.init u s d = .error ("Invalid PII section " ++ s)) ∧
    (∀ st db (u : User) (d : JsonVal), sectionsValid db →
       (MatchmakingAPI.writePost st db u (some s) (some d)).2 = db) ∧
    (∀ st db u sec dat, sectionsValid db →
       sectionsValid (MatchmakingAPI.writePost st db u sec dat).2) ∧
    (∀ st db u, sectionsValid db →
       sectionsValid (MatchmakingAPI.setupPost st db u).2) ∧
    (∀ st db u idx dv, sectionsValid db →
       sectionsValid (MatchmakingAPI.addPost st db u idx dv).2) ∧
    (∀ st db u idx, sectionsValid db →
       sectionsValid (MatchmakingAPI.addDelete st db u idx).2) ∧
    (∀ st db u pd, sectionsValid db →
       sectionsValid (MatchmakingAPI.savePost st db u pd).2) := by
  refine ⟨fun u d => init_error_of_not_mem hs, ?_,
    fun st db u sec dat h => writePost_sectionsValid st db u sec dat h,
    fun st db u h => setupPost_sectionsValid st db u h,
    fun st db u idx dv h => addPost_sectionsValid st db u idx dv h,
    fun st db u idx h => addDelete_sectionsValid st db u idx h,
    fun st db u pd h => savePost_sectionsValid st db u pd h⟩
  intro st db u d h
  by_cases hp : st.is_matchmakers_paused = true
  · rw [writePost_paused st db u (some s) (some d) hp]
  · have hgf : st.is_matchmakers_paused = false := Bool.eq_false_iff.mpr hp
    by_cases hse : (s == "") = true
    · rw [writePost_sec_empty st db u s (some d) hgf hse]
    · have hne : (s == "") = false := Bool.eq_false_iff.mpr hse
      have hget := @get_eq_nil_of_invalid db u.id s h hs hne
      rw [writePost_no_record_invalid st db u s d hgf hne hget hs]

/-- Witness for C3: the concrete section "bogus" is rejected at construction,
and a concrete setup on an empty (hence valid) store keeps the invariant. -/
theorem c3_witness :
    MatchmakersData.init ⟨1, "u1"⟩ "bogus" (.str "x") =
      .error ("Invalid PII section " ++ "bogus") ∧
    (MatchmakingAPI.writePost DatabaseStatus.initialStatus [] ⟨1, "u1"⟩
        (some "bogus") (some (.str "x"))).2 = [] ∧
    sectionsValid
      (MatchmakingAPI.setupPost DatabaseStatus.initialStatus [] ⟨1, "u1"⟩).2 :=
  ⟨(c3_section_enum_invariant "bogus" (by decide)).1 ⟨1, "u1"⟩ (.str "x"),
   (c3_section_enum_invariant "bogus" (by decide)).2.1
     DatabaseStatus.initialStatus [] ⟨1, "u1"⟩ (.str "x") sectionsValid_nil,
   (c3_section_enum_invariant "bogus" (by decide)).2.2.2.1
     DatabaseStatus.initialStatus [] ⟨1, "u1"⟩ sectionsValid_nil⟩

/-- Claim C4: starting with no `profile` record for the user, two sequential
keyed-field upserts through the add handler both answer 201; the first call
creates the record (with the empty dict as initial data, per the handler's
create branch) and the final stored document contains both `k1 = v1` and
`k2 = v2` — neither write is lost. -/
theorem c4_upsert_field_no_lost_update (st : DatabaseStatus) (db : MatchDB)
    (u : User) (k1 k2 : String) (v1 v2 : JsonVal)
    (hgate : st.is_matchmakers_paused = false)
    (hnone : MatchmakersData.get_user_matchmakers_data db u.id
      (some "profile") = [])
    (hk1 : (k1 == "") = false) (hk2 : (k2 == "") = false) (hne : k1 ≠ k2) :
    (MatchmakingAPI.addPost st db u (some k1) (some v1)).1.status = 201 ∧
    (MatchmakingAPI.addPost st
        (MatchmakingAPI.addPost st db u (some k1) (some v1)).2 u (some k2)
        (some v2)).1.status = 201 ∧
    MatchmakersData.get_user_matchmakers_data
        (MatchmakingAPI.addPost st
          (MatchmakingAPI.addPost st db u (some k1) (some v1)).2 u (some k2)
          (some v2)).2 u.id (some "profile") =
      [⟨nextId db, u.id, "profile", .obj [(k1, v1), (k2, v2)]⟩] := by
  have h1 := addPost_creates st db u k1 v1 hgate hk1 hnone
  have hget1 : MatchmakersData.get_user_matchmakers_data
      (MatchmakingAPI.addPost st db u (some k1) (some v1)).2 u.id
      (some "profile") =
      [⟨nextId db, u.id, "profile", .obj [(k1, v1)]⟩] := by
    rw [h1]
    have hsingle : MatchmakersData.get_user_matchmakers_data
        [⟨nextId db, u.id, "profile", .obj []⟩] u.id (some "profile") =
        [⟨nextId db, u.id, "profile", .obj []⟩] := by
      simp [MatchmakersData.get_user_matchmakers_data]
    rw [get_user_update, get_user_append, hnone, hsingle]
    simp
  have h2 := addPost_updates st
    (MatchmakingAPI.addPost st db u (some k1) (some v1)).2 u k2 v2
    ⟨nextId db, u.id, "profile", .obj [(k1, v1)]⟩ [] [(k1, v1)]
    hgate hk2 hget1 rfl
  have hset : assocSet [(k1, v1)] k2 v2 = [(k1, v1), (k2, v2)] := by
    simp [assocSet, hne]
  refine ⟨by rw [h1], by rw [h2], ?_⟩
  rw [h2]
  dsimp only
  rw [get_user_update, hget1, hset]
  simp

/-- Witness for C4: two concrete upserts from the empty store leave one
profile record holding both keys. -/
theorem c4_witness :
    MatchmakersData.get_user_matchmakers_data
        (MatchmakingAPI.addPost DatabaseStatus.initialStatus
          (MatchmakingAPI.addPost DatabaseStatus.initialStatus [] ⟨1, "u1"⟩
            (some "k1") (some (.str "v1"))).2 ⟨1, "u1"⟩ (some "k2")
          (some (.num 2))).2 1 (some "profile") =
      [⟨nextId [], 1, "profile", .obj [("k1", .str "v1"), ("k2", .num 2)]⟩] :=
  (c4_upsert_field_no_lost_update DatabaseStatus.initialStatus [] ⟨1, "u1"⟩
    "k1" "k2" (.str "v1") (.num 2) rfl rfl (by decide) (by decide)
    (by decide)).2.2

/-- Claim C5: with the gate open and a nonempty key, removing field `k` from
the profile document 404s ("No profile setup found") when the user has no
profile record; 404s with "index not found", returning the current full
document and leaving the store untouched, when `k` is absent from the
document; and otherwise answers 200 with the removed value and the remaining
document, which is also what the store then holds. -/
theorem c5_remove_field_branches (st : DatabaseStatus) (u : User) (k : String)
    (hgate : st.is_matchmakers_paused = false) (hk : (k == "") = false) :
    (∀ db, MatchmakersData.get_user_matchmakers_data db u.id
        (some "profile") = [] →
       MatchmakingAPI.addDelete st db u (some k) =
         (⟨404, "No profile setup found for " ++ u.uid, []⟩, db)) ∧
    (∀ db row rest fields,
       MatchmakersData.get_user_matchmakers_data db u.id (some "profile") =
         row :: rest →
       row.data = .obj fields → assocFind fields k = none →
       MatchmakingAPI.addDelete st db u (some k) =
         (⟨404, "index not found", [("full_data", .obj fields)]⟩, db)) ∧
    (∀ db row fields v,
       MatchmakersData.get_user_matchmakers_data db u.id (some "profile") =
         [row] →
       row.data = .obj fields → assocFind fields k = some v →
       (MatchmakingAPI.addDelete st db u (some k)).1 =
         ⟨200, "Data at index \"" ++ k ++ "\" deleted for " ++ u.uid,
           [("deleted_data", v),
            ("remaining_data", .obj (assocRemove fields k))]⟩ ∧
       MatchmakersData.get_user_matchmakers_data
           (MatchmakingAPI.addDelete st db u (some k)).2 u.id
           (some "profile") =
         [{ row with data := .obj (assocRemove fields k) }]) := by
  refine ⟨fun db h => addDelete_no_record st db u k hgate hk h,
    fun db row rest fields hget hdata hfind =>
      addDelete_key_missing st db u k row rest fields hgate hk hget hdata
        hfind,
    fun db row fields v hget hdata hfind => ?_⟩
  have h := addDelete_removes st db u k v row [] fields hgate hk hget hdata
    hfind
  refine ⟨by rw [h], ?_⟩
  rw [h]
  dsimp only
  rw [get_user_update, hget]
  simp

/-- Witness for C5: the three branches at concrete stores — no record, key
absent (store unchanged), key present (value removed and persisted). -/
theorem c5_witness :
    MatchmakingAPI.addDelete DatabaseStatus.initialStatus [] ⟨1, "u1"⟩
        (some "k") =
      (⟨404, "No profile setup found for " ++ "u1", []⟩, []) ∧
    MatchmakingAPI.addDelete DatabaseStatus.initialStatus
        [⟨1, 1, "profile", .obj [("a", .str "x")]⟩] ⟨1, "u1"⟩ (some "k") =
      (⟨404, "index not found", [("full_data", .obj [("a", .str "x")])]⟩,
       [⟨1, 1, "profile", .obj [("a", .str "x")]⟩]) ∧
    MatchmakersData.get_user_matchmakers_data
        (MatchmakingAPI.addDelete DatabaseStatus.initialStatus
          [⟨1, 1, "profile", .obj [("a", .str "x"), ("b", .str "y")]⟩]
          ⟨1, "u1"⟩ (some "a")).2 1 (some "profile") =
      [{ (⟨1, 1, "profile", .obj [("a", .str "x"), ("b", .str "y")]⟩ :
          MatchmakersData) with data := .obj (assocRemove
            [("a", .str "x"), ("b", .str "y")] "a") }] :=
  ⟨(c5_remove_field_branches DatabaseStatus.initialStatus ⟨1, "u1"⟩ "k" rfl
      (by decide)).1 [] rfl,
   (c5_remove_field_branches DatabaseStatus.initialStatus ⟨1, "u1"⟩ "k" rfl
      (by decide)).2.1 [⟨1, 1, "profile", .obj [("a", .str "x")]⟩]
     ⟨1, 1, "profile", .obj [("a", .str "x")]⟩ [] [("a", .str "x")] rfl rfl
     rfl,
   ((c5_remove_field_branches DatabaseStatus.initialStatus ⟨1, "u1"⟩ "a" rfl
      (by decide)).2.2
     [⟨1, 1, "profile", .obj [("a", .str "x"), ("b", .str "y")]⟩]
     ⟨1, 1, "profile", .obj [("a", .str "x"), ("b", .str "y")]⟩
     [("a", .str "x"), ("b", .str "y")] (.str "x") rfl rfl rfl).2⟩

/-- Claim C6: `filter_safe_data` equals the filter that drops exactly the
entries whose lowercased question contains one of the five fixed PII
keywords; it preserves the relative order of the kept entries (sublist of the
input), it is idempotent, membership in the output is exactly membership in
the input plus being non-PII, and the PII predicate is exactly the
fixed-keyword substring test.  Totality over every input sequence is inherent
in the embedding: the function is a total Lean function. -/
theorem c6_filter_safe_characterization (xs : List QuizEntry) :
    ProfileQuiz.filter_safe_data xs =
      xs.filter (fun r => !ProfileQuiz.is_pii r) ∧
    List.Sublist (ProfileQuiz.filter_safe_data xs) xs ∧
    ProfileQuiz.filter_safe_data (ProfileQuiz.filter_safe_data xs) =
      ProfileQuiz.filter_safe_data xs ∧
    (∀ r, r ∈ ProfileQuiz.filter_safe_data xs ↔
       r ∈ xs ∧ ProfileQuiz.is_pii r = false) ∧
    (∀ r : QuizEntry, ProfileQuiz.is_pii r = true ↔
       ∃ kw ∈ pii_keywords, strContains (pyLower r.questionText) kw = true) := by
  refine ⟨filter_safe_eq_filter xs, ?_, ?_, ?_, ?_⟩
  · rw [filter_safe_eq_filter]
    exact List.filter_sublist _
  · rw [filter_safe_eq_filter xs, filter_safe_eq_filter, List.filter_filter]
    simp
  · intro r
    rw [filter_safe_eq_filter]
    simp [List.mem_filter]
  · intro r
    simp [ProfileQuiz.is_pii, List.any_eq_true]

/-- Claim C7, counterexample: the record the legacy variant persists for a
fresh uid on an empty file is exactly the object with keys `id`, `uid` and
`created_at` — it carries NO `data` key, contrary to the claimed
`(id, uid, created_at, data)` shape. -/
theorem c7_counterexample_record_lacks_data_key :
    (create_profile_setup "2026-01-01T00:00:00" "u1" []).2 =
      [[("id", .num 1), ("uid", .str "u1"),
        ("created_at", .str "2026-01-01T00:00:00")]] ∧
    assocFind ((create_profile_setup "2026-01-01T00:00:00" "u1" []).2.headD [])
      "data" = none :=
  ⟨rfl, rfl⟩

/-- Claim C7 (amended): every record the legacy file-backed variant persists
is an object of the shape (id, uid, created_at) — there is no per-record
`data` map — and the file as a whole is a single JSON array of such
objects (`write_profile_setups`). -/
theorem c7_legacy_records_shape (now uid : String) (setups : List JsonObj)
    (h : ∀ r ∈ setups, legacyShape r) :
    ∀ r ∈ (create_profile_setup now uid setups).2,
      legacyShape r ∧ assocFind r "data" = none := by
  intro r hr
  have hshape : legacyShape r := by
    unfold create_profile_setup at hr
    by_cases hex : setups.any (fun s => setupUidMatches s uid) = true
    · rw [if_pos hex] at hr
      exact h r hr
    · rw [if_neg hex] at hr
      dsimp only at hr
      rcases List.mem_append.1 hr with hr | hr
      · exact h r hr
      · obtain rfl := List.mem_singleton.1 hr
        rfl
  refine ⟨hshape, assocFind_of_not_mem_keys ?_⟩
  rw [hshape]
  decide

/-- Witness for C7: creating a setup for "u2" over a one-record file yields
the well-shaped record without a `data` key. -/
theorem c7_legacy_shape_witness :
    legacyShape [("id", JsonVal.num 2), ("uid", .str "u2"),
      ("created_at", .str "t0")] ∧
    assocFind [("id", JsonVal.num 2), ("uid", .str "u2"),
      ("created_at", .str "t0")] "data" = none :=
  c7_legacy_records_shape "t0" "u2"
    [[("id", .num 1), ("uid", .str "u1"), ("created_at", .str "t")]]
    (by
      intro r hr
      obtain rfl := List.mem_singleton.1 hr
      rfl)
    [("id", JsonVal.num 2), ("uid", .str "u2"), ("created_at", .str "t0")]
    (List.mem_cons_of_mem _ (List.mem_cons_self _ _))

/-- Claim C8: label resolution is the two-stage matcher — a label that is
exactly one of the eight fixed type names resolves to the type of that name;
otherwise the first dict entry whose name is a case-insensitive substring of
the label wins; otherwise the fixed Peacemaker default is returned. -/
theorem c8_classify_two_stage :
    (∀ L, L ∈ PERSONALITY_TYPES.map Prod.fst →
       (classify_personality L).type_name = L) ∧
    (∀ L pair, L ∉ PERSONALITY_TYPES.map Prod.fst →
       PERSONALITY_TYPES.find?
           (fun p => strContains (pyLower L) (pyLower p.1)) = some pair →
       classify_personality L = pair.2 ∧ pair.2.type_name = pair.1) ∧
    (∀ L, L ∉ PERSONALITY_TYPES.map Prod.fst →
       PERSONALITY_TYPES.find?
           (fun p => strContains (pyLower L) (pyLower p.1)) = none →
       classify_personality L = thePeacemaker) := by
  have hcons : ∀ p ∈ PERSONALITY_TYPES, p.2.type_name = p.1 := by decide
  refine ⟨?_, ?_, ?_⟩
  · intro L hL
    obtain ⟨v, hv⟩ := Option.isSome_iff_exists.1
      (assocFind_isSome_of_mem_keys hL)
    unfold classify_personality
    rw [hv]
    exact hcons (L, v) (assocFind_mem hv)
  · intro L pair hL hfind
    unfold classify_personality
    rw [assocFind_of_not_mem_keys hL, fuzzyScan_eq_find, hfind]
    exact ⟨rfl, hcons pair (List.mem_of_find?_eq_some hfind)⟩
  · intro L hL hfind
    unfold classify_personality
    rw [assocFind_of_not_mem_keys hL, fuzzyScan_eq_find, hfind]
    rfl

/-- Witness for C8: one exact match, one fuzzy substring match, one default. -/
theorem c8_classify_witness :
    (classify_personality "The Leader").type_name = "The Leader" ∧
    classify_personality "certainly The Empath" = ⟨"The Empath", "💖"⟩ ∧
    classify_personality "mysterious" = thePeacemaker :=
  ⟨c8_classify_two_stage.1 "The Leader" (by decide),
   (c8_classify_two_stage.2.1 "certainly The Empath"
     ("The Empath", ⟨"The Empath", "💖"⟩) (by decide) (by decide)).1,
   c8_classify_two_stage.2.2 "mysterious" (by decide) (by decide)⟩

/-- Claim C9: for any upstream completion whose content, after the trim and
markdown-fence stripping of the handler, is not valid JSON (`parseJson`
models `json.loads`, `none` meaning it would raise), `analyze_bio_safety`
answers 200 with `success = true` and exactly the fixed fallback report —
`is_safe: true`, `risk_score: 0`, `severity: "safe"` — and, being a total
function into responses, never propagates the failure as an error. -/
theorem c9_bio_safety_fallback (parseJson : String → Option JsonVal)
    (bio sec content : String) (hbio : (bio == "") = false)
    (hparse : parseJson (stripFences (pyStrip content)) = none) :
    analyze_bio_safety parseJson bio sec (.ok content) =
      ⟨200, true, some bioFallbackParse, true, none, none⟩ ∧
    assocFind [("is_safe", JsonVal.bool true), ("risk_score", .num 0),
        ("issues_found", .arr []), ("severity", .str "safe"),
        ("message", .str "No obvious safety issues detected"),
        ("suggestions", .arr [])] "is_safe" = some (.bool true) ∧
    bioFallbackParse =
      .obj [("is_safe", .bool true), ("risk_score", .num 0),
        ("issues_found", .arr []), ("severity", .str "safe"),
        ("message", .str "No obvious safety issues detected"),
        ("suggestions", .arr [])] := by
  refine ⟨?_, rfl, rfl⟩
  unfold analyze_bio_safety
  simp [hbio, hparse]

/-- Witness for C9: a concrete non-JSON completion yields the fixed fallback
report with success status. -/
theorem c9_bio_safety_witness :
    analyze_bio_safety (fun _ => none) "I like hiking" "bio"
        (.ok "this is not json") =
      ⟨200, true, some bioFallbackParse, true, none, none⟩ :=
  (c9_bio_safety_fallback (fun _ => none) "I like hiking" "bio"
    "this is not json" (by decide) rfl).1

/-- Claim C10: with the gate open, setup answers 409 exactly when the user
already owns at least one section record of ANY section (the existence check
runs without a section filter), and on a user with no records it creates the
`profile` record with empty data and returns its `read()`. -/
theorem c10_setup_conflict_any_section (st : DatabaseStatus) (db : MatchDB)
    (u : User) (hgate : st.is_matchmakers_paused = false) :
    ((MatchmakingAPI.setupPost st db u).1.status = 409 ↔
       ∃ r ∈ db, r.user_id = u.id) ∧
    ((∀ r ∈ db, r.user_id ≠ u.id) →
       MatchmakingAPI.setupPost st db u =
         (⟨201, "Profile setup initialized for " ++ u.uid,
            [("data", MatchmakersData.read u
               ⟨nextId db, u.id, "profile", .obj []⟩)]⟩,
          db ++ [⟨nextId db, u.id, "profile", .obj []⟩])) := by
  have hgetdef : MatchmakersData.get_user_matchmakers_data db u.id none =
      db.filter (fun r => r.user_id == u.id) := rfl
  constructor
  · cases hget : MatchmakersData.get_user_matchmakers_data db u.id none with
    | nil =>
        rw [setupPost_creates st db u hgate hget]
        dsimp only
        constructor
        · intro h
          exact absurd h (by norm_num)
        · rintro ⟨r, hr, hru⟩
          rw [hgetdef] at hget
          have := List.filter_eq_nil_iff.1 hget r hr
          simp [hru] at this
    | cons row rest =>
        rw [setupPost_conflict st db u row rest hgate hget]
        dsimp only
        constructor
        · intro _
          have hrow : row ∈ db.filter (fun r => r.user_id == u.id) := by
            rw [← hgetdef, hget]
            exact List.mem_cons_self _ _
          have hm := List.mem_filter.1 hrow
          exact ⟨row, hm.1, eq_of_beq hm.2⟩
        · intro _
          rfl
  · intro hno
    have hget : MatchmakersData.get_user_matchmakers_data db u.id none =
        [] := by
      rw [hgetdef]
      exact List.filter_eq_nil_iff.2 fun r hr => by simp [hno r hr]
    exact setupPost_creates st db u hgate hget

/-- Witness for C10: a user holding only a `basic` record is refused setup
with 409, and a user with no records gets the fresh empty `profile` record. -/
theorem c10_setup_witness :
    (MatchmakingAPI.setupPost DatabaseStatus.initialStatus
        [⟨1, 1, "basic", .obj []⟩] ⟨1, "u1"⟩).1.status = 409 ∧
    MatchmakingAPI.setupPost DatabaseStatus.initialStatus [] ⟨1, "u1"⟩ =
      (⟨201, "Profile setup initialized for " ++ "u1",
         [("data", MatchmakersData.read ⟨1, "u1"⟩
            ⟨nextId [], 1, "profile", .obj []⟩)]⟩,
       [] ++ [⟨nextId [], 1, "profile", .obj []⟩]) :=
  ⟨(c10_setup_conflict_any_section DatabaseStatus.initialStatus
      [⟨1, 1, "basic", .obj []⟩] ⟨1, "u1"⟩ rfl).1.mpr
     ⟨⟨1, 1, "basic", .obj []⟩, List.mem_cons_self _ _, rfl⟩,
   (c10_setup_conflict_any_section DatabaseStatus.initialStatus [] ⟨1, "u1"⟩
      rfl).2 (fun r hr => absurd hr (List.not_mem_nil r))⟩
